import Mathlib

/-!
Verification of the download-orchestration scripts.

Shallow embedding of `scripts/download_models.py` and `scripts/list_files.py`.

Modelling conventions:
- The filesystem is a pair of an existing-directory list and an association
  list from file paths to byte sizes.
- The external fetch service (`hf_hub_download`) is an oracle parameter: given
  (repo_id, filename, local_dir) and the filesystem at call time, it either
  raises an error message or returns a path, in both cases together with the
  filesystem as the call left it.
- Every `print` call is recorded as one string in an output trace; f-string
  interpolation becomes string concatenation.
- Python float arithmetic in `format_file_size` is modelled exactly: the
  running value after k divisions by 1024.0 is exactly size_bytes / 1024^k,
  represented by the numerator together with the denominator 1024^k.  The
  one-decimal formatting rounds half to even, as printf-style formatting of
  a binary float does on an exactly-representable value.  All inputs reached
  by the properties below are exactly representable, so the exact-rational
  model and the binary-float computation agree on them.
- String suffix and prefix tests are implemented over the character lists of
  the strings, matching the case-sensitive semantics of Python `str.endswith`
  and `str.startswith`.
-/

/-- Case-sensitive prefix test on strings, over their character lists. -/
def strStartsWith (s t : String) : Bool := List.isPrefixOf t.data s.data

/-- Case-sensitive suffix test on strings, over their character lists. -/
def strEndsWith (s t : String) : Bool := List.isSuffixOf t.data s.data

/-- One-decimal rendering of the exact nonnegative rational a / d (with d > 0):
round 10*a/d half to even and print the integer and tenths digits.  This is the
model of Python one-decimal float formatting applied to the exact value a / d. -/
def fmtOneDecimal (a d : ℕ) : String :=
  let x := 10 * a
  let q := x / d
  let r := x % d
  let t := if 2 * r < d then q else if d < 2 * r then q + 1 else if q % 2 = 0 then q else q + 1
  toString (t / 10) ++ "." ++ toString (t % 10)

/-- The unit loop of `format_file_size`.  The running float value is the exact
rational n / d where d is the power of 1024 accumulated so far; the source
comparison `size_bytes < 1024.0` becomes `n < 1024 * d` and the source update
`size_bytes /= 1024.0` multiplies the denominator by 1024. -/
def fmtLoop : ℕ → ℕ → List String → String
  | n, d, [] => fmtOneDecimal n d ++ " TB"
  | n, d, u :: us =>
      if n < 1024 * d then fmtOneDecimal n d ++ " " ++ u else fmtLoop n (1024 * d) us

/-- Embedding of `format_file_size`: convert a byte count to a human readable
string, dividing by 1024 per unit step, one decimal place. -/
def format_file_size (size_bytes : ℕ) : String :=
  if size_bytes = 0 then "0 B"
  else fmtLoop size_bytes 1 ["B", "KB", "MB", "GB"]

/-- Filesystem model: the set of existing directories (as a list) and the
existing files as an association list from path to byte size. -/
structure FS where
  dirs : List String
  files : List (String × ℕ)
deriving DecidableEq

/-- Size of the file at a path, when a file exists there. -/
def lookupFile (fs : FS) (p : String) : Option ℕ := fs.files.lookup p

/-- Embedding of `file_exists`: check if a file exists and return its size
(and 0 when it does not exist). -/
def file_exists (fs : FS) (p : String) : Bool × ℕ :=
  match lookupFile fs p with
  | some sz => (true, sz)
  | none => (false, 0)

/-- Split a path into its components at the slash character. -/
def splitOnSlash : List Char → List (List Char)
  | [] => [[]]
  | c :: cs =>
      if c = '/' then [] :: splitOnSlash cs
      else
        match splitOnSlash cs with
        | [] => [[c]]
        | g :: gs => (c :: g) :: gs

/-- Join path components with slashes. -/
def joinParts : List (List Char) → List Char
  | [] => []
  | [p] => p
  | p :: ps => p ++ '/' :: joinParts ps

/-- The directory together with all its ancestors, shortest first:
the directories `Path(p).mkdir(parents=True)` guarantees to exist. -/
def ancestors (p : String) : List String :=
  let parts := splitOnSlash p.data
  (List.range parts.length).map (fun i => String.mk (joinParts (parts.take (i + 1))))

/-- Add a directory to the directory list when it is not already present. -/
def addDir (ds : List String) (d : String) : List String :=
  if d ∈ ds then ds else ds ++ [d]

/-- Model of `Path(path).mkdir(parents=True, exist_ok=True)`: create the
directory and its ancestors, a no-op for each that already exists. -/
def mkdir_parents (fs : FS) (p : String) : FS :=
  { fs with dirs := (ancestors p).foldl addDir fs.dirs }

/-- Embedding of `create_directory`: create the directory (with parents,
no error if existing) and print a confirmation line. -/
def create_directory (fs : FS) (path : String) : FS × List String :=
  (mkdir_parents fs path, ["✓ Created directory: " ++ path])

/-- Embedding of `os.path.join` for POSIX paths with two arguments. -/
def joinPath (a b : String) : String :=
  if strStartsWith b "/" then b
  else if a = "" then b
  else if strEndsWith a "/" then a ++ b
  else a ++ "/" ++ b

/-- One download task: the fields of one entry of the `MODELS` list. -/
structure ModelInfo where
  repo_id : String
  filename : String
  local_dir : String
  description : String
deriving DecidableEq

/-- The fixed `MODELS` configuration list of the script. -/
def MODELS : List ModelInfo :=
  [{ repo_id := "irish-quant/Qwen-Qwen2.5-Coder-3B-Instruct-2bit",
     filename := "Qwen2.5-Coder-3B-Instruct-Q2_K.gguf",
     local_dir := "models/2bit",
     description := "2-bit quantized (0.5B, smallest, fastest)" },
   { repo_id := "irish-quant/Qwen-Qwen2.5-Coder-3B-Instruct-3bit",
     filename := "Qwen2.5-Coder-3B-Instruct-Q3_K_M.gguf",
     local_dir := "models/3bit",
     description := "3-bit quantized (0.6B, balanced)" },
   { repo_id := "irish-quant/Qwen-Qwen2.5-Coder-3B-Instruct-4bit",
     filename := "Qwen2.5-Coder-3B-Instruct-Q4_K_M.gguf",
     local_dir := "models/4bit",
     description := "4-bit quantized (highest quality)" }]

/-- Outcome of one call to the external fetch service (`hf_hub_download`):
either an exception with a message, or a returned path; both carry the
filesystem as the call left it. -/
inductive FetchOutcome where
  | raise : String → FS → FetchOutcome
  | ret : String → FS → FetchOutcome
deriving DecidableEq

/-- The fetch service as an oracle: it receives repo_id, filename and
local_dir, plus the filesystem at call time. -/
abbrev Fetch := String → String → String → FS → FetchOutcome

/-- Result of `download_model`: the returned boolean, the filesystem after the
call, the printed lines, and whether the fetch service was invoked. -/
structure DLResult where
  success : Bool
  fs : FS
  out : List String
  fetchCalled : Bool
deriving DecidableEq

/-- Embedding of `download_model`: ensure the directory exists, skip the fetch
when the target file is already present, otherwise call the fetch service and
verify that the path it returned exists. -/
def download_model (fetch : Fetch) (m : ModelInfo) (fs : FS) : DLResult :=
  let out0 := ["\n📥 Downloading " ++ m.description,
               "   Repository: " ++ m.repo_id,
               "   File: " ++ m.filename,
               "   Directory: " ++ m.local_dir]
  let cd := create_directory fs m.local_dir
  let fs1 := cd.1
  let out1 := out0 ++ cd.2
  let file_path := joinPath m.local_dir m.filename
  let ex := file_exists fs1 file_path
  if ex.1 then
    { success := true, fs := fs1,
      out := out1 ++ ["✓ File already exists: " ++ file_path,
                      "  Size: " ++ format_file_size ex.2],
      fetchCalled := false }
  else
    let out2 := out1 ++ ["   Downloading... (this may take a while)"]
    match fetch m.repo_id m.filename m.local_dir fs1 with
    | FetchOutcome.raise e fs2 =>
        { success := false, fs := fs2,
          out := out2 ++ ["❌ Error downloading " ++ m.filename ++ ": " ++ e],
          fetchCalled := true }
    | FetchOutcome.ret downloaded_path fs2 =>
        let ex2 := file_exists fs2 downloaded_path
        if ex2.1 then
          { success := true, fs := fs2,
            out := out2 ++ ["✓ Successfully downloaded: " ++ downloaded_path,
                            "  Size: " ++ format_file_size ex2.2],
            fetchCalled := true }
        else
          { success := false, fs := fs2,
            out := out2 ++ ["❌ Download failed: File not found at " ++ downloaded_path],
            fetchCalled := true }

/-- The mutable state of `main`: the two counters, the filesystem, and the
output printed so far. -/
structure RunState where
  success_count : ℕ
  total_size : ℕ
  fs : FS
  out : List String
deriving DecidableEq

/-- One iteration of the loop in `main` over task number i of n: print the
progress header, run `download_model`, and on success add the size of the file
at the target path (when it exists) to the running total. -/
def main_step (fetch : Fetch) (n i : ℕ) (st : RunState) (m : ModelInfo) : RunState :=
  let header := "\n[" ++ toString i ++ "/" ++ toString n ++ "] Processing " ++ m.description
  let r := download_model fetch m st.fs
  if r.success then
    let file_path := joinPath m.local_dir m.filename
    let ex := file_exists r.fs file_path
    { success_count := st.success_count + 1,
      total_size := st.total_size + (if ex.1 then ex.2 else 0),
      fs := r.fs,
      out := st.out ++ [header] ++ r.out }
  else
    { success_count := st.success_count,
      total_size := st.total_size,
      fs := r.fs,
      out := st.out ++ [header] ++ r.out ++ ["❌ Failed to download " ++ m.filename] }

/-- The loop of `main` over the remaining tasks, with n the total number of
tasks and i the 1-based number of the next task. -/
def run_models (fetch : Fetch) (n : ℕ) : ℕ → RunState → List ModelInfo → RunState
  | _, st, [] => st
  | i, st, m :: rest => run_models fetch n (i + 1) (main_step fetch n i st m) rest

/-- The separator line printed by `main`: 50 equal signs. -/
def eqBar : String := String.mk (List.replicate 50 '=')

/-- The summary block printed by `main` after the loop, from the total number
of tasks and the final state. -/
def summary_out (n : ℕ) (st : RunState) : List String :=
  ["\n" ++ eqBar,
   "📊 Download Summary",
   eqBar,
   "✓ Successfully downloaded: " ++ toString st.success_count ++ "/" ++ toString n ++ " models",
   "📦 Total size: " ++ format_file_size st.total_size] ++
  (if st.success_count = n then
    ["\n🎉 All models downloaded successfully!",
     "\nNext steps:",
     "1. Copy models to app/src/main/assets/models/",
     "2. Build the project: ./gradlew assembleDebug",
     "3. Install on device: adb install app/build/outputs/apk/debug/app-debug.apk"]
  else
    ["\n⚠️  " ++ toString (n - st.success_count) ++ " model(s) failed to download",
     "Please check your internet connection and try again"])

/-- Embedding of `main`, generalized over the fetch oracle, the initial
filesystem and the task list (the script runs it on `MODELS`).  Named
`main_run` because `main` is reserved in Lean. -/
def main_run (fetch : Fetch) (fs0 : FS) (models : List ModelInfo) : RunState :=
  let st0 : RunState :=
    { success_count := 0, total_size := 0, fs := fs0,
      out := ["Mobile LLM Battery Benchmark - Model Downloader",
              eqBar,
              "Total models: " ++ toString models.length,
              "Models: Qwen2.5-Coder-3B-Instruct (2bit, 3bit, 4bit)"] }
  let r := run_models fetch models.length 1 st0 models
  { r with out := r.out ++ summary_out models.length r }

/-- The inner loop of `list_files.py`: print a check line for every file whose
name ends in the lowercase suffix ".gguf". -/
def listFilesLoop : List String → List String
  | [] => []
  | f :: rest =>
      (if strEndsWith f ".gguf" then ["  ✓ " ++ f] else []) ++ listFilesLoop rest

/-- One iteration of the module-level loop of `list_files.py`: print the repo
header, then either the matching files or the caught error message.  The
listing service is an oracle from repo id to a file list or an error. -/
def process_repo (listing : String → Except String (List String)) (repo : String) :
    List String :=
  ["\n📁 Files in " ++ repo ++ ":"] ++
  (match listing repo with
   | Except.ok files => listFilesLoop files
   | Except.error e => ["  ❌ Error: " ++ e])

/-- The module-level loop of `list_files.py` over a list of repo ids. -/
def list_files_main (listing : String → Except String (List String)) :
    List String → List String
  | [] => []
  | repo :: rest => process_repo listing repo ++ list_files_main listing rest

/-- The fixed repo list of `list_files.py`. -/
def repos : List String :=
  ["irish-quant/Qwen-Qwen2.5-Coder-3B-Instruct-2bit",
   "irish-quant/Qwen-Qwen2.5-Coder-3B-Instruct-3bit",
   "irish-quant/Qwen-Qwen2.5-Coder-3B-Instruct-4bit"]

/-- The empty filesystem. -/
def fsEmpty : FS := { dirs := [], files := [] }

/-- The initial state of the counters of `main`, over the empty filesystem. -/
def emptyState : RunState :=
  { success_count := 0, total_size := 0, fs := fsEmpty, out := [] }

/-- First task of the three-task scenario. -/
def c5task1 : ModelInfo :=
  { repo_id := "r1", filename := "a.gguf", local_dir := "m1", description := "one" }

/-- Second task of the three-task scenario. -/
def c5task2 : ModelInfo :=
  { repo_id := "r2", filename := "b.gguf", local_dir := "m2", description := "two" }

/-- Third task of the three-task scenario. -/
def c5task3 : ModelInfo :=
  { repo_id := "r3", filename := "c.gguf", local_dir := "m3", description := "three" }

/-- Fetch oracle of the three-task scenario: writes a 100-byte file for the
first repo, a 200-byte file for the second, raises for the third. -/
def c5fetch : Fetch := fun repo filename local_dir fs =>
  if repo = "r1" then
    FetchOutcome.ret (joinPath local_dir filename)
      { fs with files := fs.files ++ [(joinPath local_dir filename, 100)] }
  else if repo = "r2" then
    FetchOutcome.ret (joinPath local_dir filename)
      { fs with files := fs.files ++ [(joinPath local_dir filename, 200)] }
  else
    FetchOutcome.raise "connection error" fs

/-- A state with one pre-existing 42-byte file at the target path of the
first scenario task. -/
def c2st : RunState :=
  { success_count := 0, total_size := 0,
    fs := { dirs := [], files := [("m1/a.gguf", 42)] }, out := [] }

/-- Filesystem after the first scenario fetch call on the empty filesystem. -/
def c1wfs2 : FS := { dirs := ["m1"], files := [("m1/a.gguf", 100)] }

/-- A demo task whose fetch writes somewhere other than the target path. -/
def c1task : ModelInfo :=
  { repo_id := "r", filename := "f.gguf", local_dir := "d", description := "demo" }

/-- A fetch oracle that succeeds but returns a path different from the target
path directory-joined-with-filename. -/
def c1badFetch : Fetch := fun _ _ _ fs =>
  FetchOutcome.ret "elsewhere/f.gguf" { fs with files := fs.files ++ [("elsewhere/f.gguf", 5)] }

/-- The filesystem `c1badFetch` produces from the empty filesystem after the
directory of `c1task` was created. -/
def c1fsAfter : FS := { dirs := ["d"], files := [("elsewhere/f.gguf", 5)] }

/-- A listing oracle that fails on the repo id "bad". -/
def c7listing : String → Except String (List String) := fun repo =>
  if repo = "bad" then Except.error "boom" else Except.ok ["a.gguf", "b.txt"]

/-- A state in which one task out of one succeeded. -/
def c5stW : RunState := { success_count := 1, total_size := 0, fs := fsEmpty, out := [] }

/-- A filesystem in which the directory models/2bit and its parent exist. -/
def c8fs : FS := { dirs := ["models", "models/2bit"], files := [] }

/-- Membership in the directory list is preserved by the create-directory fold. -/
lemma mem_foldl_addDir_left (x : String) :
    ∀ (as ds : List String), x ∈ ds → x ∈ List.foldl addDir ds as := by
  intro as
  induction as with
  | nil => intro ds h; simpa using h
  | cons b as ih =>
      intro ds h
      simp only [List.foldl_cons]
      apply ih
      unfold addDir
      split <;> simp [h]

/-- Every directory in the created list is in the directory list after the fold. -/
lemma mem_foldl_addDir (x : String) :
    ∀ (as ds : List String), x ∈ as → x ∈ List.foldl addDir ds as := by
  intro as
  induction as with
  | nil => intro ds h; simp at h
  | cons b as ih =>
      intro ds h
      simp only [List.foldl_cons]
      rcases List.mem_cons.mp h with rfl | h2
      · apply mem_foldl_addDir_left
        unfold addDir
        split
        · assumption
        · simp
      · exact ih _ h2

/-- The create-directory fold is the identity when every directory to create
is already present. -/
lemma foldl_addDir_id :
    ∀ (as ds : List String), (∀ a ∈ as, a ∈ ds) → List.foldl addDir ds as = ds := by
  intro as
  induction as with
  | nil => intro ds _; rfl
  | cons b as ih =>
      intro ds h
      simp only [List.foldl_cons]
      have hb : addDir ds b = ds := by
        unfold addDir
        rw [if_pos (h b (by simp))]
      rw [hb]
      exact ih ds (fun a ha => h a (by simp [ha]))

/-- Step bounds for one loop iteration of `main`. -/
lemma main_step_counters (fetch : Fetch) (n i : ℕ) (st : RunState) (m : ModelInfo) :
    st.success_count ≤ (main_step fetch n i st m).success_count ∧
    (main_step fetch n i st m).success_count ≤ st.success_count + 1 ∧
    st.total_size ≤ (main_step fetch n i st m).total_size := by
  cases h : (download_model fetch m st.fs).success <;>
    simp [main_step, h]

/-- C4: the size-formatting function maps 0 to "0 B", 1536 to "1.5 KB",
1048576 to "1.0 MB", and every value at least 1024^4 is rendered in TB. -/
theorem spec_c4 :
    format_file_size 0 = "0 B" ∧
    format_file_size 1536 = "1.5 KB" ∧
    format_file_size 1048576 = "1.0 MB" ∧
    ∀ n : ℕ, 1024 ^ 4 ≤ n → ∃ s, format_file_size n = s ++ " TB" := by
  refine ⟨by decide, by decide, by decide, ?_⟩
  intro n hn
  have hn' : 1099511627776 ≤ n := by norm_num at hn; exact hn
  have h0 : ¬ n = 0 := by omega
  refine ⟨fmtOneDecimal n (1024 * (1024 * (1024 * (1024 * 1)))), ?_⟩
  unfold format_file_size
  rw [if_neg h0]
  show fmtLoop n 1 ["B", "KB", "MB", "GB"] = _
  rw [fmtLoop, if_neg (by omega), fmtLoop, if_neg (by omega),
      fmtLoop, if_neg (by omega), fmtLoop, if_neg (by omega), fmtLoop]

/-- Witness for C4 at the input 1024^4. -/
theorem spec_c4_witness : ∃ s, format_file_size 1099511627776 = s ++ " TB" :=
  spec_c4.2.2.2 1099511627776 (by norm_num)

/-- C10: every exact power of 1024 up to 1024^4 is promoted to the larger
unit and formatted as "1.0" with that unit. -/
theorem spec_c10 :
    format_file_size 1024 = "1.0 KB" ∧
    format_file_size (1024 ^ 2) = "1.0 MB" ∧
    format_file_size (1024 ^ 3) = "1.0 GB" ∧
    format_file_size (1024 ^ 4) = "1.0 TB" := by
  refine ⟨by decide, by decide, by decide, by decide⟩

/-- C6: the listing loop reports exactly the filenames with the lowercase
suffix ".gguf", case-sensitively and in order. -/
theorem spec_c6 :
    (∀ files : List String,
      listFilesLoop files
        = (files.filter (fun f => strEndsWith f ".gguf")).map (fun f => "  ✓ " ++ f)) ∧
    listFilesLoop ["a.gguf", "b.txt", "c.GGUF"] = ["  ✓ a.gguf"] := by
  constructor
  · intro files
    induction files with
    | nil => rfl
    | cons f rest ih =>
        by_cases h : strEndsWith f ".gguf" = true <;>
          simp [listFilesLoop, List.filter_cons, h, ih]
  · decide

/-- C7: an error from the listing service for one repo yields one diagnostic
line for that repo, and the remaining repos are still processed. -/
theorem spec_c7 : ∀ (listing : String → Except String (List String)) (repo e : String)
    (rest : List String),
    listing repo = Except.error e →
    list_files_main listing (repo :: rest)
      = ["\n📁 Files in " ++ repo ++ ":"] ++ ["  ❌ Error: " ++ e]
        ++ list_files_main listing rest := by
  intro listing repo e rest h
  simp [list_files_main, process_repo, h]

/-- Witness for C7 at a concrete failing oracle. -/
theorem spec_c7_witness :
    list_files_main c7listing ["bad", "good"]
      = ["\n📁 Files in " ++ "bad" ++ ":"] ++ ["  ❌ Error: " ++ "boom"]
        ++ list_files_main c7listing ["good"] :=
  spec_c7 c7listing "bad" "boom" ["good"] (by rfl)

/-- C2: when the target file pre-exists, the fetch service is not invoked,
the task counts as a success, and the pre-existing size enters the total. -/
theorem spec_c2 : ∀ (fetch : Fetch) (n i : ℕ) (st : RunState) (m : ModelInfo) (sz : ℕ),
    lookupFile st.fs (joinPath m.local_dir m.filename) = some sz →
    (download_model fetch m st.fs).fetchCalled = false ∧
    (download_model fetch m st.fs).success = true ∧
    (main_step fetch n i st m).success_count = st.success_count + 1 ∧
    (main_step fetch n i st m).total_size = st.total_size + sz := by
  intro fetch n i st m sz h
  have hfe : file_exists (mkdir_parents st.fs m.local_dir) (joinPath m.local_dir m.filename)
      = (true, sz) := by
    unfold file_exists
    rw [show lookupFile (mkdir_parents st.fs m.local_dir) (joinPath m.local_dir m.filename)
          = some sz from h]
  simp [main_step, download_model, create_directory, hfe]

/-- Witness for C2 with a 42-byte pre-existing file. -/
theorem spec_c2_witness :
    (download_model c5fetch c5task1 c2st.fs).fetchCalled = false ∧
    (download_model c5fetch c5task1 c2st.fs).success = true ∧
    (main_step c5fetch 1 1 c2st c5task1).success_count = c2st.success_count + 1 ∧
    (main_step c5fetch 1 1 c2st c5task1).total_size = c2st.total_size + 42 := by
  refine spec_c2 c5fetch 1 1 c2st c5task1 42 ?_
  decide

/-- C1 (amended): when the target file is absent and the fetch service
succeeds, the success count increments by one; when moreover the returned
path is the target path, the total grows by the downloaded size. -/
theorem spec_c1 : ∀ (fetch : Fetch) (n i : ℕ) (st : RunState) (m : ModelInfo)
    (p : String) (fs2 : FS) (sz : ℕ),
    lookupFile st.fs (joinPath m.local_dir m.filename) = none →
    fetch m.repo_id m.filename m.local_dir (mkdir_parents st.fs m.local_dir)
      = FetchOutcome.ret p fs2 →
    lookupFile fs2 p = some sz →
    p = joinPath m.local_dir m.filename →
    (main_step fetch n i st m).success_count = st.success_count + 1 ∧
    (main_step fetch n i st m).total_size = st.total_size + sz := by
  intro fetch n i st m p fs2 sz h hf hp hpe
  subst hpe
  have hfe : file_exists (mkdir_parents st.fs m.local_dir) (joinPath m.local_dir m.filename)
      = (false, 0) := by
    unfold file_exists
    rw [show lookupFile (mkdir_parents st.fs m.local_dir) (joinPath m.local_dir m.filename)
          = none from h]
  have hfe2 : file_exists fs2 (joinPath m.local_dir m.filename) = (true, sz) := by
    unfold file_exists
    rw [hp]
  simp [main_step, download_model, create_directory, hfe, hf, hfe2]

/-- Witness for C1 with a 100-byte download to the target path. -/
theorem spec_c1_witness :
    (main_step c5fetch 1 1 emptyState c5task1).success_count = emptyState.success_count + 1 ∧
    (main_step c5fetch 1 1 emptyState c5task1).total_size = emptyState.total_size + 100 := by
  refine spec_c1 c5fetch 1 1 emptyState c5task1 (joinPath "m1" "a.gguf") c1wfs2 100 ?_ ?_ ?_ ?_
  · decide
  · decide
  · decide
  · rfl

/-- Counterexample for C1 as stated: the fetch service succeeds (it returns a
path and that path exists, holding 5 bytes), yet the cumulative total does not
grow by the downloaded size, because `main` sizes the target path instead of
the returned path. -/
theorem spec_c1_counterexample :
    c1badFetch c1task.repo_id c1task.filename c1task.local_dir
        (mkdir_parents emptyState.fs c1task.local_dir)
      = FetchOutcome.ret "elsewhere/f.gguf" c1fsAfter ∧
    lookupFile c1fsAfter "elsewhere/f.gguf" = some 5 ∧
    lookupFile emptyState.fs (joinPath c1task.local_dir c1task.filename) = none ∧
    (main_step c1badFetch 1 1 emptyState c1task).success_count = emptyState.success_count + 1 ∧
    (main_step c1badFetch 1 1 emptyState c1task).total_size = emptyState.total_size ∧
    emptyState.total_size ≠ emptyState.total_size + 5 := by
  decide

/-- C3: when the fetch service fails (raises, or its returned path is missing),
the task is not counted, contributes zero bytes, and the loop continues with
the remaining tasks. -/
theorem spec_c3 : ∀ (fetch : Fetch) (n i : ℕ) (st : RunState) (m : ModelInfo)
    (rest : List ModelInfo),
    lookupFile st.fs (joinPath m.local_dir m.filename) = none →
    ((∃ e fs2, fetch m.repo_id m.filename m.local_dir (mkdir_parents st.fs m.local_dir)
        = FetchOutcome.raise e fs2) ∨
     (∃ p fs2, fetch m.repo_id m.filename m.local_dir (mkdir_parents st.fs m.local_dir)
        = FetchOutcome.ret p fs2 ∧ lookupFile fs2 p = none)) →
    (download_model fetch m st.fs).success = false ∧
    (main_step fetch n i st m).success_count = st.success_count ∧
    (main_step fetch n i st m).total_size = st.total_size ∧
    run_models fetch n i st (m :: rest)
      = run_models fetch n (i + 1) (main_step fetch n i st m) rest := by
  intro fetch n i st m rest h hf
  have hfe : file_exists (mkdir_parents st.fs m.local_dir) (joinPath m.local_dir m.filename)
      = (false, 0) := by
    unfold file_exists
    rw [show lookupFile (mkdir_parents st.fs m.local_dir) (joinPath m.local_dir m.filename)
          = none from h]
  have hdm : (download_model fetch m st.fs).success = false := by
    rcases hf with ⟨e, fs2, hf⟩ | ⟨p, fs2, hf, hp⟩
    · simp [download_model, create_directory, hfe, hf]
    · have hfe2 : file_exists fs2 p = (false, 0) := by
        unfold file_exists
        rw [hp]
      simp [download_model, create_directory, hfe, hf, hfe2]
  refine ⟨hdm, ?_, ?_, rfl⟩ <;> simp [main_step, hdm]

/-- Witness for C3 with a raising fetch oracle. -/
theorem spec_c3_witness :
    (download_model c5fetch c5task3 emptyState.fs).success = false ∧
    (main_step c5fetch 3 3 emptyState c5task3).success_count = emptyState.success_count ∧
    (main_step c5fetch 3 3 emptyState c5task3).total_size = emptyState.total_size ∧
    run_models c5fetch 3 3 emptyState [c5task3]
      = run_models c5fetch 3 (3 + 1) (main_step c5fetch 3 3 emptyState c5task3) [] := by
  refine spec_c3 c5fetch 3 3 emptyState c5task3 [] ?_ ?_
  · decide
  · exact Or.inl ⟨"connection error", mkdir_parents emptyState.fs c5task3.local_dir, rfl⟩

/-- C8: directory creation happens with parents and is idempotent: creating an
already existing directory leaves the filesystem unchanged, and pre-creating
the task directory does not change what `download_model` does. -/
theorem spec_c8 :
    (∀ (fs : FS) (p : String), ∀ a ∈ ancestors p, a ∈ (mkdir_parents fs p).dirs) ∧
    (∀ (fs : FS) (p : String), (∀ a ∈ ancestors p, a ∈ fs.dirs) → mkdir_parents fs p = fs) ∧
    (∀ (fetch : Fetch) (m : ModelInfo) (fs : FS),
      download_model fetch m (mkdir_parents fs m.local_dir) = download_model fetch m fs) := by
  have h1 : ∀ (fs : FS) (p : String), ∀ a ∈ ancestors p, a ∈ (mkdir_parents fs p).dirs := by
    intro fs p a ha
    exact mem_foldl_addDir a _ _ ha
  have h2 : ∀ (fs : FS) (p : String),
      (∀ a ∈ ancestors p, a ∈ fs.dirs) → mkdir_parents fs p = fs := by
    intro fs p h
    unfold mkdir_parents
    rw [foldl_addDir_id _ _ h]
  refine ⟨h1, h2, ?_⟩
  intro fetch m fs
  have hmm : mkdir_parents (mkdir_parents fs m.local_dir) m.local_dir
      = mkdir_parents fs m.local_dir := h2 _ _ (h1 fs m.local_dir)
  simp only [download_model, create_directory, hmm]

/-- Witness for C8: idempotence at a concrete filesystem, and parent creation
from the empty filesystem. -/
theorem spec_c8_witness :
    mkdir_parents c8fs "models/2bit" = c8fs ∧
    "models" ∈ (mkdir_parents fsEmpty "models/2bit").dirs := by
  constructor
  · refine spec_c8.2.1 c8fs "models/2bit" ?_
    decide
  · refine spec_c8.1 fsEmpty "models/2bit" "models" ?_
    decide

/-- C9: over any run the success counter and the byte total are non-decreasing,
the successes gained never exceed the number of tasks processed, and the byte
total is non-negative (it lives in ℕ since file sizes are non-negative). -/
theorem spec_c9 : ∀ (fetch : Fetch) (n i : ℕ) (st : RunState) (ms : List ModelInfo),
    st.success_count ≤ (run_models fetch n i st ms).success_count ∧
    (run_models fetch n i st ms).success_count ≤ st.success_count + ms.length ∧
    st.total_size ≤ (run_models fetch n i st ms).total_size ∧
    0 ≤ (run_models fetch n i st ms).total_size := by
  intro fetch n i st ms
  induction ms generalizing i st with
  | nil => simp [run_models]
  | cons m rest ih =>
      obtain ⟨h1, h2, h3⟩ := main_step_counters fetch n i st m
      obtain ⟨g1, g2, g3, g4⟩ := ih (i + 1) (main_step fetch n i st m)
      simp only [run_models, List.length_cons]
      exact ⟨le_trans h1 g1, by omega, le_trans h3 g3, Nat.zero_le _⟩

/-- C5: the summary prints successes over total and the scaled total size,
with a next-steps hint exactly when all tasks succeeded and otherwise a retry
hint carrying the number of failures; in the three-task scenario with two
successes of 100 and 200 bytes the report shows 2/3, 300.0 B and one failure. -/
theorem spec_c5 :
    (∀ (n : ℕ) (st : RunState),
      ("✓ Successfully downloaded: " ++ toString st.success_count ++ "/" ++ toString n
          ++ " models") ∈ summary_out n st ∧
      ("📦 Total size: " ++ format_file_size st.total_size) ∈ summary_out n st ∧
      (st.success_count = n →
        "\n🎉 All models downloaded successfully!" ∈ summary_out n st) ∧
      (st.success_count ≠ n →
        ("\n⚠️  " ++ toString (n - st.success_count) ++ " model(s) failed to download")
          ∈ summary_out n st)) ∧
    (main_run c5fetch fsEmpty [c5task1, c5task2, c5task3]).success_count = 2 ∧
    (main_run c5fetch fsEmpty [c5task1, c5task2, c5task3]).total_size = 300 ∧
    "✓ Successfully downloaded: 2/3 models"
      ∈ (main_run c5fetch fsEmpty [c5task1, c5task2, c5task3]).out ∧
    "📦 Total size: 300.0 B" ∈ (main_run c5fetch fsEmpty [c5task1, c5task2, c5task3]).out ∧
    "\n⚠️  1 model(s) failed to download"
      ∈ (main_run c5fetch fsEmpty [c5task1, c5task2, c5task3]).out := by
  refine ⟨?_, by decide, by decide, by decide, by decide, by decide⟩
  intro n st
  by_cases h : st.success_count = n <;>
    simp [summary_out, h]

/-- Witness for C5: both summary hints at concrete states. -/
theorem spec_c5_witness :
    "\n🎉 All models downloaded successfully!" ∈ summary_out 1 c5stW ∧
    ("\n⚠️  " ++ toString (2 - c5stW.success_count) ++ " model(s) failed to download")
      ∈ summary_out 2 c5stW := by
  constructor
  · refine (spec_c5.1 1 c5stW).2.2.1 ?_
    decide
  · refine (spec_c5.1 2 c5stW).2.2.2 ?_
    decide
